import Mathlib

/-!
Verification development for the DFOS monitoring application
(`src/components/file_analyzer.py`, `src/utils/pdf_generator.py`).

The file-ingestion engine `process_bts_file` opens an HDF5 container,
reads the mandatory time dataset under the fixed path
`Acquisition/Custom/Brillouin[0]/`, probes the presence of four marker
datasets, classifies the container into one of two schema variants
(`TempStrain` or `BrillFrequency`), extracts frame 0 of each 2-D
primary array, and returns a dict-shaped result.  The presentation
layer applies an additive offset and an inclusive index-range mask
before charting, CSV export and PDF generation.

All numeric dataset entries are modelled as rationals (the Python code
copies entries and adds scalar offsets; it performs no float-specific
operation on them), and HDF5 2-D datasets as a column count together
with a list of frames.
-/

/-- Model of a 2-D numeric HDF5 dataset: `cols` is the second component
of its shape (the per-frame length, `shape[1]` in numpy) and `data` its
list of frames (rows, first axis). -/
structure NdArray2 where
  cols : Nat
  data : List (List ℚ)
deriving DecidableEq

/-- Model of `arr.shape` for a 2-D dataset: first axis length, second axis length. -/
def NdArray2.shape (a : NdArray2) : Nat × Nat :=
  (a.data.length, a.cols)

/-- Model of `arr[0]` on the first axis: numpy raises
IndexError with the message below when the first axis is empty. -/
def NdArray2.frame0 : NdArray2 → Except String (List ℚ)
  | ⟨_, []⟩ => .error "index 0 is out of bounds for axis 0 with size 0"
  | ⟨_, r :: _⟩ => .ok r

/-- Content of the fixed-path group `Acquisition/Custom/Brillouin[0]/`
of a successfully opened container: each field is `some` exactly when
the correspondingly named dataset exists under the fixed path. -/
structure Brill0 where
  brillouinDataTime : Option (List ℚ)
  strainData : Option NdArray2
  temperatureData : Option NdArray2
  frequencyData : Option NdArray2
  amplitudeData : Option NdArray2
deriving DecidableEq

/-- Model of the `metadata` dict of a success result: the shape of the
time dataset and the native shapes of the two primary arrays as read
(`strain_shape`/`temp_shape` for TempStrain, `freq_shape`/`amp_shape`
for BrillFrequency). -/
structure BtsMetadata where
  time_shape : Nat
  shape_a : Nat × Nat
  shape_b : Nat × Nat
deriving DecidableEq

/-- Model of the dict returned by `process_bts_file`: a key that may be
absent from the Python dict is an `Option` field, `none` meaning the
key is not set. -/
structure PyResult where
  success : Bool
  error : Option String := none
  file_type : Option String := none
  time : Option (List ℚ) := none
  strain_full : Option NdArray2 := none
  temp_full : Option NdArray2 := none
  freq_full : Option NdArray2 := none
  amp_full : Option NdArray2 := none
  strain_first : Option (List ℚ) := none
  temp_first : Option (List ℚ) := none
  freq_first : Option (List ℚ) := none
  amp_first : Option (List ℚ) := none
  distance : Option (List Nat) := none
  distance_points : Option Nat := none
  metadata : Option BtsMetadata := none
deriving DecidableEq

/-- Failure dict `\x7b'success': False, 'error': msg\x7d`: only the two
keys `success` and `error` are set. -/
def PyResult.failure (msg : String) : PyResult :=
  { success := false, error := some msg }

/-- Message of the h5py KeyError raised by reading
`BrillouinDataTime` when that dataset is absent (the exact h5py text is
longer; no claim depends on it, only on the failure being tagged). -/
def keyErrorTime : String :=
  "Unable to open object BrillouinDataTime: object does not exist"

/-- Message of the h5py OSError raised by `h5py.File` on bytes that are
not an HDF5 container. -/
def openError : String :=
  "Unable to open file: file signature not found"

/-- One dataset read from the handle opened by
`h5py.File(file_obj, "r")`: mode `r` is read-only, so a read returns
the selected value and leaves the container content unchanged. -/
def h5read (c : Brill0) (sel : Brill0 → Option α) : Option α × Brill0 :=
  (sel c, c)

/-- Body of the `with h5py.File(...) as f:` block of `process_bts_file`
(src/components/file_analyzer.py lines 24-88), threading the open
handle content through every dataset read.  `Except.error` models an
exception escaping the block (caught by the surrounding `except`);
`Except.ok` a normal `return`.  The order of the fallible steps is the
order of the Python statements: read time, presence probes, read both
variant arrays, then `strain[0]` before `temp[0]` (resp. `freq[0]`
before `amp[0]`).  The `none` cases of the in-branch dataset reads are
unreachable because the branch guard has established presence. -/
def process_bts_file_body (c0 : Brill0) : Except String PyResult × Brill0 :=
  match h5read c0 (fun c => c.brillouinDataTime) with
  | (none, c1) => (.error keyErrorTime, c1)
  | (some time, c1) =>
    let has_strain := c1.strainData.isSome
    let has_temp := c1.temperatureData.isSome
    let has_freq := c1.frequencyData.isSome
    let has_amp := c1.amplitudeData.isSome
    if has_strain && has_temp then
      match h5read c1 (fun c => c.strainData) with
      | (none, c2) => (.error "Unable to open object StrainData: object does not exist", c2)
      | (some strain, c2) =>
        match h5read c2 (fun c => c.temperatureData) with
        | (none, c3) => (.error "Unable to open object TemperatureData: object does not exist", c3)
        | (some temp, c3) =>
          let distance_points := strain.cols
          let distance := List.range distance_points
          match strain.frame0 with
          | .error e => (.error e, c3)
          | .ok strain_1 =>
            match temp.frame0 with
            | .error e => (.error e, c3)
            | .ok temp_1 =>
              (.ok { success := true
                     file_type := some "TempStrain"
                     time := some time
                     strain_full := some strain
                     temp_full := some temp
                     strain_first := some strain_1
                     temp_first := some temp_1
                     distance := some distance
                     distance_points := some distance_points
                     metadata := some ⟨time.length, strain.shape, temp.shape⟩ }, c3)
    else if has_freq && has_amp then
      match h5read c1 (fun c => c.frequencyData) with
      | (none, c2) => (.error "Unable to open object FrequencyData: object does not exist", c2)
      | (some freq, c2) =>
        match h5read c2 (fun c => c.amplitudeData) with
        | (none, c3) => (.error "Unable to open object AmplitudeData: object does not exist", c3)
        | (some amp, c3) =>
          let distance_points := freq.cols
          let distance := List.range distance_points
          match freq.frame0 with
          | .error e => (.error e, c3)
          | .ok freq_1 =>
            match amp.frame0 with
            | .error e => (.error e, c3)
            | .ok amp_1 =>
              (.ok { success := true
                     file_type := some "BrillFrequency"
                     time := some time
                     freq_full := some freq
                     amp_full := some amp
                     freq_first := some freq_1
                     amp_first := some amp_1
                     distance := some distance
                     distance_points := some distance_points
                     metadata := some ⟨time.length, freq.shape, amp.shape⟩ }, c3)
    else
      (.ok (PyResult.failure "Unknown file format"), c1)

/-- The whole of `process_bts_file` with the container content made
explicit: the input is `none` when the bytes do not parse as an HDF5
container (the `h5py.File` constructor raises, caught by the
`except`), otherwise `some` of the parsed fixed-path group content.
Returns the result dict together with the container content after the
call. -/
def process_bts_file_S (file : Option Brill0) : PyResult × Option Brill0 :=
  match file with
  | none => (PyResult.failure openError, none)
  | some c =>
    match process_bts_file_body c with
    | (.ok r, c2) => (r, some c2)
    | (.error e, c2) => (PyResult.failure e, some c2)

/-- Result of `process_bts_file` (src/components/file_analyzer.py
lines 20-94) on a container. -/
def process_bts_file (file : Option Brill0) : PyResult :=
  (process_bts_file_S file).1

/-- Elementwise addition of a scalar offset, modelling numpy
broadcasting in `temp_data = result['temp_first'] + t_off`
(src/components/file_analyzer.py line 657). -/
def addOffset (xs : List ℚ) (off : ℚ) : List ℚ :=
  xs.map (fun x => x + off)

/-- Boolean-mask selection `xs[mask]` with
`mask = (distance >= lo) & (distance <= hi)` and
`distance = np.arange(len(xs))` (src/components/file_analyzer.py
line 658): keeps exactly the entries whose index lies in `[lo, hi]`. -/
def maskSelect (xs : List ℚ) (lo hi : Nat) : List ℚ :=
  (xs.enum.filter (fun p => decide (lo ≤ p.1) && decide (p.1 ≤ hi))).map Prod.snd

/-- Series plotted on the interactive single-file chart
(src/components/file_analyzer.py lines 657-668): offset first, then
the inclusive index-range mask. -/
def chart_masked_series (first : List ℚ) (off : ℚ) (lo hi : Nat) : List ℚ :=
  maskSelect (addOffset first off) lo hi

/-- Modelled from the spec: the expression `(A + o)[lo:hi+1]` of
property P5, Python slice semantics (`drop lo` then take
`hi + 1 - lo` elements). -/
def spec_slice (xs : List ℚ) (lo hi : Nat) : List ℚ :=
  (xs.drop lo).take (hi + 1 - lo)

/-- Minimum of a list of rationals, `arr.min()` on a nonempty numpy
array (the `[]` default is never reached by the claims). -/
def listMin : List ℚ → ℚ
  | [] => 0
  | a :: t => t.foldl min a

/-- Maximum of a list of rationals, `arr.max()` on a nonempty array. -/
def listMax : List ℚ → ℚ
  | [] => 0
  | a :: t => t.foldl max a

/-- Arithmetic mean, `arr.mean()`. -/
def listMean (l : List ℚ) : ℚ :=
  l.sum / l.length

/-- Population variance, the square of `arr.std()` (numpy default
ddof 0); the PDF prints its square root, which the rationals cannot
express, so the page record stores the variance. -/
def listVar (l : List ℚ) : ℚ :=
  (l.map (fun x => (x - listMean l) ^ 2)).sum / l.length

/-- One per-channel page of the single-file PDF report: the plotted
series and the statistics printed in the stats box. -/
structure ChannelPage where
  series : List ℚ
  statMin : ℚ
  statMax : ℚ
  statMean : ℚ
  statVar : ℚ
deriving DecidableEq

/-- Per-channel page built by `_generate_single_report`
(src/utils/pdf_generator.py lines 133-168):
`temp_plot_data = (result['temp_first'] + temp_offset)[mask]` with the
same index mask as the chart, and the stats box printing min, max,
mean and std of `temp_plot_data` itself. -/
def pdf_channel_page (first : List ℚ) (off : ℚ) (lo hi : Nat) : ChannelPage :=
  let plot_data := maskSelect (addOffset first off) lo hi
  ⟨plot_data, listMin plot_data, listMax plot_data, listMean plot_data, listVar plot_data⟩

/-- Rows of the CSV produced by `export_to_csv`
(src/components/file_analyzer.py lines 100-107): a pandas DataFrame
of the three equal-length columns, one row per position. -/
def export_to_csv (distance : List Nat) (temp strain : List ℚ) :
    List (Nat × ℚ × ℚ) :=
  distance.zip (temp.zip strain)

/-- Rows of the CSV produced by `export_to_csv_brillouin`
(src/components/file_analyzer.py lines 109-116). -/
def export_to_csv_brillouin (distance : List Nat) (freq amp : List ℚ) :
    List (Nat × ℚ × ℚ) :=
  distance.zip (freq.zip amp)

/-- CSV rows at the TempStrain call site
(src/components/file_analyzer.py lines 588-589):
`export_to_csv(result['distance'], result['temp_first'],
result['strain_first'])` — the raw stored fields, before any offset or
range control is read. -/
def csv_export_rows (r : PyResult) : List (Nat × ℚ × ℚ) :=
  export_to_csv (r.distance.getD []) (r.temp_first.getD []) (r.strain_first.getD [])

/-- CSV rows at the BrillFrequency call site
(src/components/file_analyzer.py line 591):
`export_to_csv_brillouin(result['distance'], result['freq_first'],
result['amp_first'])` — likewise the raw stored fields. -/
def csv_export_rows_brillouin (r : PyResult) : List (Nat × ℚ × ℚ) :=
  export_to_csv_brillouin (r.distance.getD []) (r.freq_first.getD []) (r.amp_first.getD [])

/-- One page of the two-file comparison PDF. The `difference`
constructor exists to state whether any differencing page is ever
emitted. -/
inductive CmpPage where
  | cover (fname1 fname2 : String)
  | channel (title : String) (series1 series2 : Option (List ℚ))
  | difference (title : String) (diff : List ℚ)
deriving DecidableEq

/-- Whether a page is a differencing page. -/
def CmpPage.isDifference : CmpPage → Bool
  | .difference _ _ => true
  | _ => false

/-- Pages emitted by `_generate_comparison_report`
(src/utils/pdf_generator.py lines 343-391): a cover page, then — only
when the first result is of type TempStrain — a raw temperature
comparison page and a raw strain comparison page. -/
def generate_comparison_report (r1 r2 : PyResult) (f1 f2 : String) :
    List CmpPage :=
  CmpPage.cover f1 f2 ::
    (if r1.file_type = some "TempStrain" then
      [CmpPage.channel "Temperature Comparison" r1.temp_first r2.temp_first,
       CmpPage.channel "Strain Comparison" r1.strain_first r2.strain_first]
    else [])

/-- Whether the character list `hay` begins with `needle`. -/
def charsBeginWith : List Char → List Char → Bool
  | [], _ => true
  | _ :: _, [] => false
  | n :: ns, h :: hs => n == h && charsBeginWith ns hs

/-- Whether `needle` occurs contiguously inside `hay`. -/
def charsContain (needle : List Char) : List Char → Bool
  | [] => charsBeginWith needle []
  | h :: t => charsBeginWith needle (h :: t) || charsContain needle t

/-- Whether the string `hay` mentions `needle` as a substring. -/
def strMentions (needle hay : String) : Bool :=
  charsContain needle.data hay.data

/-- Whether an error message names all four probed marker datasets, as
the presence-enumeration requirement of the spec demands. -/
def enumerates_presence (msg : String) : Bool :=
  strMentions "StrainData" msg && strMentions "TemperatureData" msg &&
    strMentions "FrequencyData" msg && strMentions "AmplitudeData" msg

/-- Shape contract of a result dict: a failure carries an error message
and no variant-specific field; a success carries every field of its
chosen variant. -/
def tagged_result_ok (r : PyResult) : Prop :=
  (r.success = false →
    r.error.isSome = true ∧ r.file_type = none ∧ r.time = none ∧
    r.strain_full = none ∧ r.temp_full = none ∧ r.freq_full = none ∧
    r.amp_full = none ∧ r.strain_first = none ∧ r.temp_first = none ∧
    r.freq_first = none ∧ r.amp_first = none ∧ r.distance = none ∧
    r.distance_points = none ∧ r.metadata = none) ∧
  (r.success = true →
    r.error = none ∧ r.time.isSome = true ∧ r.distance.isSome = true ∧
    r.distance_points.isSome = true ∧ r.metadata.isSome = true ∧
    ((r.file_type = some "TempStrain" ∧ r.strain_full.isSome = true ∧
      r.temp_full.isSome = true ∧ r.strain_first.isSome = true ∧
      r.temp_first.isSome = true) ∨
     (r.file_type = some "BrillFrequency" ∧ r.freq_full.isSome = true ∧
      r.amp_full.isSome = true ∧ r.freq_first.isSome = true ∧
      r.amp_first.isSome = true)))

/-- Container holding only StrainData besides the time dataset (the
P3 scenario of the spec). -/
def exOnlyStrain : Brill0 :=
  ⟨some [0], some ⟨3, [[1, 2, 3]]⟩, none, none, none⟩

/-- TempStrain container with 2 frames of 3 distance points. -/
def exTS : Brill0 :=
  ⟨some [0, 1], some ⟨3, [[1, 2, 3], [4, 5, 6]]⟩,
    some ⟨3, [[7, 8, 9], [10, 11, 12]]⟩, none, none⟩

/-- A second TempStrain container with the same distance-point count. -/
def exTS2 : Brill0 :=
  ⟨some [0, 1], some ⟨3, [[2, 3, 4], [5, 6, 7]]⟩,
    some ⟨3, [[8, 9, 10], [11, 12, 13]]⟩, none, none⟩

/-- BrillFrequency container with 1 frame of 2 distance points. -/
def exBF : Brill0 :=
  ⟨some [0], none, none, some ⟨2, [[1, 2]]⟩, some ⟨2, [[3, 4]]⟩⟩

/-- Container satisfying both variant conditions at once. -/
def exBoth : Brill0 :=
  ⟨some [0], some ⟨2, [[1, 2], [3, 4]]⟩, some ⟨2, [[5, 6], [7, 8]]⟩,
    some ⟨2, [[9, 10]]⟩, some ⟨2, [[11, 12]]⟩⟩

/-- TempStrain container whose two arrays disagree on the second
dimension (strain has 3 columns, temperature 2). -/
def exMismatchTS : Brill0 :=
  ⟨some [0], some ⟨3, [[1, 2, 3]]⟩, some ⟨2, [[4, 5]]⟩, none, none⟩

/-- BrillFrequency container whose two arrays disagree on the second
dimension (frequency has 2 columns, amplitude 4). -/
def exMismatchBF : Brill0 :=
  ⟨some [0], none, none, some ⟨2, [[1, 2]]⟩, some ⟨4, [[3, 4, 5, 6]]⟩⟩

/-- TempStrain container whose StrainData has zero frames. -/
def exEmptyStrain : Brill0 :=
  ⟨some [0], some ⟨4, []⟩, some ⟨4, [[1, 2, 3, 4]]⟩, none, none⟩

/-- TempStrain container whose TemperatureData has zero frames. -/
def exEmptyTemp : Brill0 :=
  ⟨some [0], some ⟨4, [[1, 2, 3, 4]]⟩, some ⟨4, []⟩, none, none⟩

/-- BrillFrequency container whose FrequencyData has zero frames. -/
def exEmptyFreq : Brill0 :=
  ⟨some [0], none, none, some ⟨4, []⟩, some ⟨4, [[1, 2, 3, 4]]⟩⟩

/-- BrillFrequency container whose AmplitudeData has zero frames. -/
def exEmptyAmp : Brill0 :=
  ⟨some [0], none, none, some ⟨4, [[1, 2, 3, 4]]⟩, some ⟨4, []⟩⟩

/-- A concrete processed result used to instantiate CSV lemmas. -/
def exCsvResult : PyResult :=
  { success := true, distance := some [0, 1],
    temp_first := some [5, 6], strain_first := some [7, 8] }

/-- A concrete BrillFrequency processed result for the CSV lemmas. -/
def exCsvResultBF : PyResult :=
  { success := true, distance := some [0, 1],
    freq_first := some [1, 2], amp_first := some [3, 4] }

/-- Container satisfying both variant conditions whose StrainData has
zero frames. -/
def exBothEmptyStrain : Brill0 :=
  ⟨some [0], some ⟨2, []⟩, some ⟨2, [[5, 6], [7, 8]]⟩,
    some ⟨2, [[9, 10]]⟩, some ⟨2, [[11, 12]]⟩⟩

/-- TempStrain container with a one-frame StrainData of 3 columns and a
zero-frame TemperatureData of 2 columns. -/
def exMismatchEmptyTemp : Brill0 :=
  ⟨some [0], some ⟨3, [[1, 2, 3]]⟩, some ⟨2, []⟩, none, none⟩

theorem process_bts_file_body_state (c : Brill0) :
    (process_bts_file_body c).2 = c := by
  unfold process_bts_file_body h5read
  cases c.brillouinDataTime <;> simp
  all_goals repeat (first | (split <;> try simp_all) | simp_all | rfl)

theorem maskSelect_enumFrom (xs : List ℚ) :
    ∀ (s lo hi : Nat),
      ((List.enumFrom s xs).filter
          (fun p => decide (lo ≤ p.1) && decide (p.1 ≤ hi))).map Prod.snd
        = (xs.drop (lo - s)).take (hi + 1 - max lo s) := by
  induction xs with
  | nil => intro s lo hi; simp
  | cons a t ih =>
    intro s lo hi
    rw [List.enumFrom_cons, List.filter_cons]
    by_cases h1 : lo ≤ s
    · by_cases h2 : s ≤ hi
      · have hcond : (decide (lo ≤ (s, a).1) && decide ((s, a).1 ≤ hi)) = true := by
          simp [h1, h2]
        rw [if_pos hcond, List.map_cons, ih (s + 1) lo hi]
        have e1 : lo - s = 0 := by omega
        have e2 : lo - (s + 1) = 0 := by omega
        have e3 : max lo s = s := by omega
        have e4 : max lo (s + 1) = s + 1 := by omega
        have e5 : hi + 1 - s = (hi - s) + 1 := by omega
        have e6 : hi + 1 - (s + 1) = hi - s := by omega
        rw [e1, e2, e3, e4, e5, e6, List.drop_zero, List.drop_zero,
          List.take_succ_cons]
      · have hcond : (decide (lo ≤ (s, a).1) && decide ((s, a).1 ≤ hi)) = false := by
          simp [h2]
        rw [if_neg (by simp [hcond]), ih (s + 1) lo hi]
        have e1 : lo - s = 0 := by omega
        have e2 : lo - (s + 1) = 0 := by omega
        have e3 : max lo s = s := by omega
        have e4 : max lo (s + 1) = s + 1 := by omega
        have e5 : hi + 1 - s = 0 := by omega
        have e6 : hi + 1 - (s + 1) = 0 := by omega
        rw [e1, e2, e3, e4, e5, e6, List.drop_zero, List.drop_zero,
          List.take_zero, List.take_zero]
    · have hcond : (decide (lo ≤ (s, a).1) && decide ((s, a).1 ≤ hi)) = false := by
        simp [h1]
      rw [if_neg (by simp [hcond]), ih (s + 1) lo hi]
      have e3 : max lo s = lo := by omega
      have e4 : max lo (s + 1) = lo := by omega
      obtain ⟨k, hk⟩ : ∃ k, lo - s = k + 1 := ⟨lo - s - 1, by omega⟩
      have e2 : lo - (s + 1) = k := by omega
      rw [e2, e3, e4, hk, List.drop_succ_cons]

theorem maskSelect_eq_slice (xs : List ℚ) (lo hi : Nat) :
    maskSelect xs lo hi = spec_slice xs lo hi := by
  have h := maskSelect_enumFrom xs 0 lo hi
  simp only [Nat.sub_zero, Nat.max_zero] at h
  unfold maskSelect spec_slice
  rw [show xs.enum = List.enumFrom 0 xs from rfl]
  exact h

theorem process_tempStrain_eq (c : Brill0) (time : List ℚ)
    (scols tcols : Nat) (s0 t0 : List ℚ) (srest trest : List (List ℚ))
    (h1 : c.brillouinDataTime = some time)
    (h2 : c.strainData = some ⟨scols, s0 :: srest⟩)
    (h3 : c.temperatureData = some ⟨tcols, t0 :: trest⟩) :
    process_bts_file (some c) =
      { success := true
        file_type := some "TempStrain"
        time := some time
        strain_full := some ⟨scols, s0 :: srest⟩
        temp_full := some ⟨tcols, t0 :: trest⟩
        strain_first := some s0
        temp_first := some t0
        distance := some (List.range scols)
        distance_points := some scols
        metadata := some ⟨time.length, ((s0 :: srest).length, scols),
          ((t0 :: trest).length, tcols)⟩ } := by
  unfold process_bts_file process_bts_file_S process_bts_file_body h5read
  simp [h1, h2, h3, NdArray2.frame0, NdArray2.shape]

theorem process_brillFrequency_eq (c : Brill0) (time : List ℚ)
    (fcols acols : Nat) (f0 a0 : List ℚ) (frest arest : List (List ℚ))
    (h1 : c.brillouinDataTime = some time)
    (hguard : (c.strainData.isSome && c.temperatureData.isSome) = false)
    (h2 : c.frequencyData = some ⟨fcols, f0 :: frest⟩)
    (h3 : c.amplitudeData = some ⟨acols, a0 :: arest⟩) :
    process_bts_file (some c) =
      { success := true
        file_type := some "BrillFrequency"
        time := some time
        freq_full := some ⟨fcols, f0 :: frest⟩
        amp_full := some ⟨acols, a0 :: arest⟩
        freq_first := some f0
        amp_first := some a0
        distance := some (List.range fcols)
        distance_points := some fcols
        metadata := some ⟨time.length, ((f0 :: frest).length, fcols),
          ((a0 :: arest).length, acols)⟩ } := by
  unfold process_bts_file process_bts_file_S process_bts_file_body h5read
  simp [h1, hguard, h2, h3, NdArray2.frame0, NdArray2.shape]

theorem process_unknown_format_eq (c : Brill0) (time : List ℚ)
    (h1 : c.brillouinDataTime = some time)
    (hg1 : (c.strainData.isSome && c.temperatureData.isSome) = false)
    (hg2 : (c.frequencyData.isSome && c.amplitudeData.isSome) = false) :
    process_bts_file (some c) = PyResult.failure "Unknown file format" := by
  unfold process_bts_file process_bts_file_S process_bts_file_body h5read
  simp [h1, hg1, hg2]

theorem process_missing_time_eq (c : Brill0)
    (h1 : c.brillouinDataTime = none) :
    process_bts_file (some c) = PyResult.failure keyErrorTime := by
  unfold process_bts_file process_bts_file_S process_bts_file_body h5read
  simp [h1]

theorem process_strain_empty_eq (c : Brill0) (time : List ℚ)
    (scols : Nat) (ta : NdArray2)
    (h1 : c.brillouinDataTime = some time)
    (h2 : c.strainData = some ⟨scols, []⟩)
    (h3 : c.temperatureData = some ta) :
    process_bts_file (some c) =
      PyResult.failure "index 0 is out of bounds for axis 0 with size 0" := by
  unfold process_bts_file process_bts_file_S process_bts_file_body h5read
  simp [h1, h2, h3, NdArray2.frame0]

theorem process_temp_empty_eq (c : Brill0) (time : List ℚ)
    (scols tcols : Nat) (s0 : List ℚ) (srest : List (List ℚ))
    (h1 : c.brillouinDataTime = some time)
    (h2 : c.strainData = some ⟨scols, s0 :: srest⟩)
    (h3 : c.temperatureData = some ⟨tcols, []⟩) :
    process_bts_file (some c) =
      PyResult.failure "index 0 is out of bounds for axis 0 with size 0" := by
  unfold process_bts_file process_bts_file_S process_bts_file_body h5read
  simp [h1, h2, h3, NdArray2.frame0]

theorem process_freq_empty_eq (c : Brill0) (time : List ℚ)
    (fcols : Nat) (aa : NdArray2)
    (h1 : c.brillouinDataTime = some time)
    (hguard : (c.strainData.isSome && c.temperatureData.isSome) = false)
    (h2 : c.frequencyData = some ⟨fcols, []⟩)
    (h3 : c.amplitudeData = some aa) :
    process_bts_file (some c) =
      PyResult.failure "index 0 is out of bounds for axis 0 with size 0" := by
  unfold process_bts_file process_bts_file_S process_bts_file_body h5read
  simp [h1, hguard, h2, h3, NdArray2.frame0]

theorem process_amp_empty_eq (c : Brill0) (time : List ℚ)
    (fcols acols : Nat) (f0 : List ℚ) (frest : List (List ℚ))
    (h1 : c.brillouinDataTime = some time)
    (hguard : (c.strainData.isSome && c.temperatureData.isSome) = false)
    (h2 : c.frequencyData = some ⟨fcols, f0 :: frest⟩)
    (h3 : c.amplitudeData = some ⟨acols, []⟩) :
    process_bts_file (some c) =
      PyResult.failure "index 0 is out of bounds for axis 0 with size 0" := by
  unfold process_bts_file process_bts_file_S process_bts_file_body h5read
  simp [h1, hguard, h2, h3, NdArray2.frame0]

/-- Claim C1, as stated, is false: for a container with only StrainData
present under the fixed path, `process_bts_file` returns success=false
with the fixed message Unknown file format, which does not name any of
the four probed datasets, let alone enumerate their presence. -/
theorem claim_C1_counterexample :
    process_bts_file (some exOnlyStrain) =
      PyResult.failure "Unknown file format" ∧
    enumerates_presence "Unknown file format" = false := by
  constructor
  · rfl
  · rfl

/-- Claim C1 amended: for every container whose time dataset exists but
where neither variant pair is fully present, `process_bts_file`
returns success=false with the fixed generic message Unknown file
format; the four presence flags are computed but never reported, so
the message does not enumerate them. -/
theorem claim_C1 (c : Brill0) (time : List ℚ)
    (h1 : c.brillouinDataTime = some time)
    (hg1 : (c.strainData.isSome && c.temperatureData.isSome) = false)
    (hg2 : (c.frequencyData.isSome && c.amplitudeData.isSome) = false) :
    (process_bts_file (some c)).success = false ∧
    (process_bts_file (some c)).error = some "Unknown file format" ∧
    enumerates_presence "Unknown file format" = false := by
  rw [process_unknown_format_eq c time h1 hg1 hg2]
  exact ⟨rfl, rfl, rfl⟩

/-- Witness for the amended claim C1 at the container holding only
StrainData. -/
theorem claim_C1_witness :
    exOnlyStrain.brillouinDataTime = some [0] ∧
    (exOnlyStrain.strainData.isSome && exOnlyStrain.temperatureData.isSome) = false ∧
    (exOnlyStrain.frequencyData.isSome && exOnlyStrain.amplitudeData.isSome) = false ∧
    ((process_bts_file (some exOnlyStrain)).success = false ∧
      (process_bts_file (some exOnlyStrain)).error = some "Unknown file format" ∧
      enumerates_presence "Unknown file format" = false) :=
  ⟨rfl, rfl, rfl, claim_C1 exOnlyStrain [0] rfl rfl rfl⟩

theorem tagged_result_ok_of_failure (msg : String) :
    tagged_result_ok (PyResult.failure msg) := by
  simp [tagged_result_ok, PyResult.failure]

theorem claim_C2_aux (c : Brill0) (time : List ℚ)
    (hb : c.brillouinDataTime = some time)
    (hguard : (c.strainData.isSome && c.temperatureData.isSome) = false) :
    tagged_result_ok (process_bts_file (some c)) := by
  cases hf : c.frequencyData with
  | none =>
    rw [process_unknown_format_eq c time hb hguard (by simp [hf])]
    exact tagged_result_ok_of_failure _
  | some fa =>
    cases ha : c.amplitudeData with
    | none =>
      rw [process_unknown_format_eq c time hb hguard (by simp [ha])]
      exact tagged_result_ok_of_failure _
    | some aa =>
      obtain ⟨fcols, fdata⟩ := fa
      cases fdata with
      | nil =>
        rw [process_freq_empty_eq c time fcols aa hb hguard hf ha]
        exact tagged_result_ok_of_failure _
      | cons f0 frest =>
        obtain ⟨acols, adata⟩ := aa
        cases adata with
        | nil =>
          rw [process_amp_empty_eq c time fcols acols f0 frest hb hguard hf ha]
          exact tagged_result_ok_of_failure _
        | cons a0 arest =>
          rw [process_brillFrequency_eq c time fcols acols f0 a0 frest arest
            hb hguard hf ha]
          simp [tagged_result_ok]

/-- Claim C2: `process_bts_file` always returns a tagged result value
(the embedding is a total function, every exception of the body being
mapped to a failure dict): a failure result carries an error message
and no variant-specific field, and a success result carries every
field of its chosen variant. -/
theorem claim_C2 (file : Option Brill0) :
    tagged_result_ok (process_bts_file file) := by
  cases file with
  | none =>
    have : process_bts_file none = PyResult.failure openError := rfl
    rw [this]
    exact tagged_result_ok_of_failure _
  | some c =>
    cases hb : c.brillouinDataTime with
    | none =>
      rw [process_missing_time_eq c hb]
      exact tagged_result_ok_of_failure _
    | some time =>
      cases hs : c.strainData with
      | none => exact claim_C2_aux c time hb (by simp [hs])
      | some sa =>
        cases ht : c.temperatureData with
        | none => exact claim_C2_aux c time hb (by simp [ht])
        | some ta =>
          obtain ⟨scols, sdata⟩ := sa
          cases sdata with
          | nil =>
            rw [process_strain_empty_eq c time scols ta hb hs ht]
            exact tagged_result_ok_of_failure _
          | cons s0 srest =>
            obtain ⟨tcols, tdata⟩ := ta
            cases tdata with
            | nil =>
              rw [process_temp_empty_eq c time scols tcols s0 srest hb hs ht]
              exact tagged_result_ok_of_failure _
            | cons t0 trest =>
              rw [process_tempStrain_eq c time scols tcols s0 t0 srest trest
                hb hs ht]
              simp [tagged_result_ok]

/-- Witness for claim C2 at the container satisfying both variant
conditions. -/
theorem claim_C2_witness :
    tagged_result_ok (process_bts_file (some exBoth)) :=
  claim_C2 (some exBoth)

/-- Claim C3: for a successfully classified container whose primary
arrays have at least one frame, exactly frame 0 is extracted: each
first-frame field is row 0 of the stored full array, distance_points
is the second dimension of the first-named array, and distance is the
integer range over that count. -/
theorem claim_C3 :
    (∀ (c : Brill0) (time : List ℚ) (scols tcols : Nat) (s0 t0 : List ℚ)
        (srest trest : List (List ℚ)),
      c.brillouinDataTime = some time →
      c.strainData = some ⟨scols, s0 :: srest⟩ →
      c.temperatureData = some ⟨tcols, t0 :: trest⟩ →
      (process_bts_file (some c)).success = true ∧
      (process_bts_file (some c)).strain_full = some ⟨scols, s0 :: srest⟩ ∧
      (process_bts_file (some c)).strain_first = some s0 ∧
      (process_bts_file (some c)).temp_full = some ⟨tcols, t0 :: trest⟩ ∧
      (process_bts_file (some c)).temp_first = some t0 ∧
      (process_bts_file (some c)).distance_points = some scols ∧
      (process_bts_file (some c)).distance = some (List.range scols)) ∧
    (∀ (c : Brill0) (time : List ℚ) (fcols acols : Nat) (f0 a0 : List ℚ)
        (frest arest : List (List ℚ)),
      c.brillouinDataTime = some time →
      (c.strainData.isSome && c.temperatureData.isSome) = false →
      c.frequencyData = some ⟨fcols, f0 :: frest⟩ →
      c.amplitudeData = some ⟨acols, a0 :: arest⟩ →
      (process_bts_file (some c)).success = true ∧
      (process_bts_file (some c)).freq_full = some ⟨fcols, f0 :: frest⟩ ∧
      (process_bts_file (some c)).freq_first = some f0 ∧
      (process_bts_file (some c)).amp_full = some ⟨acols, a0 :: arest⟩ ∧
      (process_bts_file (some c)).amp_first = some a0 ∧
      (process_bts_file (some c)).distance_points = some fcols ∧
      (process_bts_file (some c)).distance = some (List.range fcols)) := by
  constructor
  · intro c time scols tcols s0 t0 srest trest hb hs ht
    rw [process_tempStrain_eq c time scols tcols s0 t0 srest trest hb hs ht]
    exact ⟨rfl, rfl, rfl, rfl, rfl, rfl, rfl⟩
  · intro c time fcols acols f0 a0 frest arest hb hguard hf ha
    rw [process_brillFrequency_eq c time fcols acols f0 a0 frest arest
      hb hguard hf ha]
    exact ⟨rfl, rfl, rfl, rfl, rfl, rfl, rfl⟩

/-- Witness for claim C3: both variant parts instantiated at concrete
containers. -/
theorem claim_C3_witness :
    ((process_bts_file (some exTS)).strain_first = some [1, 2, 3] ∧
      (process_bts_file (some exTS)).distance_points = some 3 ∧
      (process_bts_file (some exTS)).distance = some [0, 1, 2]) ∧
    ((process_bts_file (some exBF)).freq_first = some [1, 2] ∧
      (process_bts_file (some exBF)).distance_points = some 2) := by
  have h1 := (claim_C3.1) exTS [0, 1] 3 3 [1, 2, 3] [7, 8, 9]
    [[4, 5, 6]] [[10, 11, 12]] rfl rfl rfl
  have h2 := (claim_C3.2) exBF [0] 2 2 [1, 2] [3, 4] [] [] rfl rfl rfl rfl
  refine ⟨⟨h1.2.2.1, h1.2.2.2.2.2.1, ?_⟩, h2.2.2.1, h2.2.2.2.2.2.1⟩
  rw [h1.2.2.2.2.2.2]
  rfl

/-- Claim C4, as stated, is false: for a container satisfying both
variant conditions whose StrainData has zero frames, the TempStrain
branch is entered but `strain[0]` raises, so the result is a failure
with no file_type at all — not a result with file_type=TempStrain. -/
theorem claim_C4_counterexample :
    exBothEmptyStrain.strainData.isSome = true ∧
    exBothEmptyStrain.temperatureData.isSome = true ∧
    exBothEmptyStrain.frequencyData.isSome = true ∧
    exBothEmptyStrain.amplitudeData.isSome = true ∧
    (process_bts_file (some exBothEmptyStrain)).success = false ∧
    (process_bts_file (some exBothEmptyStrain)).file_type ≠
      some "TempStrain" := by
  decide

/-- Claim C4 amended: when all four marker datasets are present the
TempStrain condition, checked first, always wins: the BrillFrequency
branch is never taken, so the result never has
file_type=BrillFrequency and no BrillFrequency field is ever set; and
whenever the TempStrain primary arrays each have at least one frame the
result is a TempStrain success. -/
theorem claim_C4 :
    (∀ (c : Brill0) (time : List ℚ) (sa ta : NdArray2),
      c.brillouinDataTime = some time →
      c.strainData = some sa →
      c.temperatureData = some ta →
      c.frequencyData.isSome = true →
      c.amplitudeData.isSome = true →
      (process_bts_file (some c)).file_type ≠ some "BrillFrequency" ∧
      (process_bts_file (some c)).freq_full = none ∧
      (process_bts_file (some c)).amp_full = none ∧
      (process_bts_file (some c)).freq_first = none ∧
      (process_bts_file (some c)).amp_first = none) ∧
    (∀ (c : Brill0) (time : List ℚ) (scols tcols : Nat) (s0 t0 : List ℚ)
        (srest trest : List (List ℚ)),
      c.brillouinDataTime = some time →
      c.strainData = some ⟨scols, s0 :: srest⟩ →
      c.temperatureData = some ⟨tcols, t0 :: trest⟩ →
      c.frequencyData.isSome = true →
      c.amplitudeData.isSome = true →
      (process_bts_file (some c)).file_type = some "TempStrain" ∧
      (process_bts_file (some c)).success = true ∧
      (process_bts_file (some c)).freq_full = none ∧
      (process_bts_file (some c)).amp_full = none ∧
      (process_bts_file (some c)).freq_first = none ∧
      (process_bts_file (some c)).amp_first = none) := by
  constructor
  · intro c time sa ta hb hs ht _h4 _h5
    obtain ⟨scols, sdata⟩ := sa
    cases sdata with
    | nil =>
      rw [process_strain_empty_eq c time scols ta hb hs ht]
      exact ⟨by simp [PyResult.failure], rfl, rfl, rfl, rfl⟩
    | cons s0 srest =>
      obtain ⟨tcols, tdata⟩ := ta
      cases tdata with
      | nil =>
        rw [process_temp_empty_eq c time scols tcols s0 srest hb hs ht]
        exact ⟨by simp [PyResult.failure], rfl, rfl, rfl, rfl⟩
      | cons t0 trest =>
        rw [process_tempStrain_eq c time scols tcols s0 t0 srest trest
          hb hs ht]
        exact ⟨by simp, rfl, rfl, rfl, rfl⟩
  · intro c time scols tcols s0 t0 srest trest h1 h2 h3 _h4 _h5
    rw [process_tempStrain_eq c time scols tcols s0 t0 srest trest h1 h2 h3]
    exact ⟨rfl, rfl, rfl, rfl, rfl, rfl⟩

/-- Witness for the amended claim C4: both parts instantiated at the
container satisfying both variant conditions with nonempty frames. -/
theorem claim_C4_witness :
    ((process_bts_file (some exBoth)).file_type ≠ some "BrillFrequency" ∧
      (process_bts_file (some exBoth)).freq_full = none) ∧
    ((process_bts_file (some exBoth)).file_type = some "TempStrain" ∧
      (process_bts_file (some exBoth)).success = true) := by
  have h1 := claim_C4.1 exBoth [0] ⟨2, [[1, 2], [3, 4]]⟩
    ⟨2, [[5, 6], [7, 8]]⟩ rfl rfl rfl rfl rfl
  have h2 := claim_C4.2 exBoth [0] 2 2 [1, 2] [5, 6] [[3, 4]] [[7, 8]]
    rfl rfl rfl rfl rfl
  exact ⟨⟨h1.1, h1.2.1⟩, h2.1, h2.2.1⟩

/-- Claim C5: the chart series and the PDF per-channel series both
equal the Python slice (A + o)[lo:hi+1] of the offset array (the index
mask selects exactly the positions lo..hi), and the PDF statistics
(min, max, mean, and variance, whose square root is the printed std)
are computed over exactly that offset-applied, range-filtered array. -/
theorem claim_C5 (A : List ℚ) (o : ℚ) (lo hi : Nat) :
    chart_masked_series A o lo hi = spec_slice (addOffset A o) lo hi ∧
    (pdf_channel_page A o lo hi).series = spec_slice (addOffset A o) lo hi ∧
    (pdf_channel_page A o lo hi).statMin =
      listMin (spec_slice (addOffset A o) lo hi) ∧
    (pdf_channel_page A o lo hi).statMax =
      listMax (spec_slice (addOffset A o) lo hi) ∧
    (pdf_channel_page A o lo hi).statMean =
      listMean (spec_slice (addOffset A o) lo hi) ∧
    (pdf_channel_page A o lo hi).statVar =
      listVar (spec_slice (addOffset A o) lo hi) := by
  unfold chart_masked_series pdf_channel_page
  rw [maskSelect_eq_slice]
  exact ⟨rfl, rfl, rfl, rfl, rfl, rfl⟩

/-- Witness for claim C5 at a concrete array, offset and range. -/
theorem claim_C5_witness :
    chart_masked_series [1, 2, 3, 4] 10 1 2 =
      spec_slice (addOffset [1, 2, 3, 4] 10) 1 2 ∧
    (pdf_channel_page [1, 2, 3, 4] 10 1 2).series =
      spec_slice (addOffset [1, 2, 3, 4] 10) 1 2 :=
  ⟨(claim_C5 [1, 2, 3, 4] 10 1 2).1, (claim_C5 [1, 2, 3, 4] 10 1 2).2.1⟩

/-- Claim C6, as stated, is false: the CSV export at the call site
passes the raw stored distance, temperature and strain arrays, so for
the processed container exTS the rows cover every index 0..2 with raw
values, not the offset-applied rows over the active range 1..2 that the
claim requires (shown here for temperature offset 1, strain offset 10,
range lo=1, hi=2). -/
theorem claim_C6_counterexample :
    csv_export_rows (process_bts_file (some exTS)) =
      [(0, 7, 1), (1, 8, 2), (2, 9, 3)] ∧
    csv_export_rows (process_bts_file (some exTS)) ≠
      [(1, 9, 12), (2, 10, 13)] := by
  constructor
  · rfl
  · decide

theorem zip3_columns (d : List Nat) (t s : List ℚ)
    (h4 : t.length = d.length) (h5 : s.length = d.length) :
    (d.zip (t.zip s)).map Prod.fst = d ∧
    (d.zip (t.zip s)).map (fun p => p.2.1) = t ∧
    (d.zip (t.zip s)).map (fun p => p.2.2) = s := by
  have hzip : (t.zip s).length = d.length := by
    rw [List.length_zip]
    omega
  refine ⟨List.map_fst_zip d (t.zip s) (by omega), ?_, ?_⟩
  · have e1 : (d.zip (t.zip s)).map (fun p => p.2.1) =
        ((d.zip (t.zip s)).map Prod.snd).map Prod.fst := by
      rw [List.map_map]
      rfl
    rw [e1, List.map_snd_zip d (t.zip s) (by omega),
      List.map_fst_zip t s (by omega)]
  · have e2 : (d.zip (t.zip s)).map (fun p => p.2.2) =
        ((d.zip (t.zip s)).map Prod.snd).map Prod.snd := by
      rw [List.map_map]
      rfl
    rw [e2, List.map_snd_zip d (t.zip s) (by omega),
      List.map_snd_zip t s (by omega)]

/-- Claim C6 amended: at both call sites (TempStrain line 589,
BrillFrequency line 591) the exported CSV contains one row per distance
index over the entire distance axis, and its data columns are exactly
the raw first-frame arrays — no offset is added and no range filter is
applied (the chart and PDF transforms do not reach the CSV surface). -/
theorem claim_C6 :
    (∀ (r : PyResult) (d : List Nat) (t s : List ℚ),
      r.distance = some d → r.temp_first = some t →
      r.strain_first = some s →
      t.length = d.length → s.length = d.length →
      (csv_export_rows r).map Prod.fst = d ∧
      (csv_export_rows r).map (fun p => p.2.1) = t ∧
      (csv_export_rows r).map (fun p => p.2.2) = s) ∧
    (∀ (r : PyResult) (d : List Nat) (f a : List ℚ),
      r.distance = some d → r.freq_first = some f →
      r.amp_first = some a →
      f.length = d.length → a.length = d.length →
      (csv_export_rows_brillouin r).map Prod.fst = d ∧
      (csv_export_rows_brillouin r).map (fun p => p.2.1) = f ∧
      (csv_export_rows_brillouin r).map (fun p => p.2.2) = a) := by
  constructor
  · intro r d t s h1 h2 h3 h4 h5
    unfold csv_export_rows export_to_csv
    rw [h1, h2, h3]
    simp only [Option.getD_some]
    exact zip3_columns d t s h4 h5
  · intro r d f a h1 h2 h3 h4 h5
    unfold csv_export_rows_brillouin export_to_csv_brillouin
    rw [h1, h2, h3]
    simp only [Option.getD_some]
    exact zip3_columns d f a h4 h5

/-- Witness for the amended claim C6 at a concrete result of each
variant. -/
theorem claim_C6_witness :
    (exCsvResult.distance = some [0, 1] ∧
      exCsvResult.temp_first = some [5, 6] ∧
      exCsvResult.strain_first = some [7, 8] ∧
      ((csv_export_rows exCsvResult).map Prod.fst = [0, 1] ∧
        (csv_export_rows exCsvResult).map (fun p => p.2.1) = [5, 6] ∧
        (csv_export_rows exCsvResult).map (fun p => p.2.2) = [7, 8])) ∧
    (exCsvResultBF.distance = some [0, 1] ∧
      exCsvResultBF.freq_first = some [1, 2] ∧
      exCsvResultBF.amp_first = some [3, 4] ∧
      ((csv_export_rows_brillouin exCsvResultBF).map Prod.fst = [0, 1] ∧
        (csv_export_rows_brillouin exCsvResultBF).map (fun p => p.2.1) = [1, 2] ∧
        (csv_export_rows_brillouin exCsvResultBF).map (fun p => p.2.2) = [3, 4])) :=
  ⟨⟨rfl, rfl, rfl,
      claim_C6.1 exCsvResult [0, 1] [5, 6] [7, 8] rfl rfl rfl rfl rfl⟩,
    ⟨rfl, rfl, rfl,
      claim_C6.2 exCsvResultBF [0, 1] [1, 2] [3, 4] rfl rfl rfl rfl rfl⟩⟩

/-- Claim C7, as stated, is false: a TempStrain container whose
StrainData has one frame of 3 columns but whose TemperatureData has
zero frames of 2 columns is in the claim's scope (first-named array
2-D with a frame, second dimensions differ), yet `temp[0]` raises and
the result is success=false, not the claimed success=true. -/
theorem claim_C7_counterexample :
    exMismatchEmptyTemp.strainData = some ⟨3, [[1, 2, 3]]⟩ ∧
    exMismatchEmptyTemp.temperatureData = some ⟨2, []⟩ ∧
    (3 : Nat) ≠ 2 ∧
    (process_bts_file (some exMismatchEmptyTemp)).success = false ∧
    (process_bts_file (some exMismatchEmptyTemp)).error =
      some "index 0 is out of bounds for axis 0 with size 0" := by
  decide

/-- Claim C7 amended: distance_points is taken from the first-named
array of the variant pair alone; no cross-check against the second
array is performed, and — provided the variant's second array also has
at least one frame, so the frame-0 slice succeeds — extraction still
returns success=true when the two second dimensions differ. -/
theorem claim_C7 :
    (∀ (c : Brill0) (time : List ℚ) (scols tcols : Nat) (s0 t0 : List ℚ)
        (srest trest : List (List ℚ)),
      c.brillouinDataTime = some time →
      c.strainData = some ⟨scols, s0 :: srest⟩ →
      c.temperatureData = some ⟨tcols, t0 :: trest⟩ →
      scols ≠ tcols →
      (process_bts_file (some c)).success = true ∧
      (process_bts_file (some c)).distance_points = some scols ∧
      (process_bts_file (some c)).distance = some (List.range scols)) ∧
    (∀ (c : Brill0) (time : List ℚ) (fcols acols : Nat) (f0 a0 : List ℚ)
        (frest arest : List (List ℚ)),
      c.brillouinDataTime = some time →
      (c.strainData.isSome && c.temperatureData.isSome) = false →
      c.frequencyData = some ⟨fcols, f0 :: frest⟩ →
      c.amplitudeData = some ⟨acols, a0 :: arest⟩ →
      fcols ≠ acols →
      (process_bts_file (some c)).success = true ∧
      (process_bts_file (some c)).distance_points = some fcols ∧
      (process_bts_file (some c)).distance = some (List.range fcols)) := by
  constructor
  · intro c time scols tcols s0 t0 srest trest hb hs ht _hne
    rw [process_tempStrain_eq c time scols tcols s0 t0 srest trest hb hs ht]
    exact ⟨rfl, rfl, rfl⟩
  · intro c time fcols acols f0 a0 frest arest hb hguard hf ha _hne
    rw [process_brillFrequency_eq c time fcols acols f0 a0 frest arest
      hb hguard hf ha]
    exact ⟨rfl, rfl, rfl⟩

/-- Witness for claim C7 at the mismatched containers (strain 3 columns
against temperature 2; frequency 2 columns against amplitude 4). -/
theorem claim_C7_witness :
    ((3 : Nat) ≠ 2 ∧
      (process_bts_file (some exMismatchTS)).success = true ∧
      (process_bts_file (some exMismatchTS)).distance_points = some 3) ∧
    ((2 : Nat) ≠ 4 ∧
      (process_bts_file (some exMismatchBF)).success = true ∧
      (process_bts_file (some exMismatchBF)).distance_points = some 2) := by
  have h1 := claim_C7.1 exMismatchTS [0] 3 2 [1, 2, 3] [4, 5]
    [] [] rfl rfl rfl (by decide)
  have h2 := claim_C7.2 exMismatchBF [0] 2 4 [1, 2] [3, 4, 5, 6]
    [] [] rfl rfl rfl rfl (by decide)
  exact ⟨⟨by decide, h1.1, h1.2.1⟩, ⟨by decide, h2.1, h2.2.1⟩⟩

/-- Claim C8: `process_bts_file` neither mutates the container content
(the handle is opened read-only and only dataset reads occur) nor
behaves differently across runs: the content after a call is the input
content, and a second call on that content returns an identical result
value. -/
theorem claim_C8 (file : Option Brill0) :
    (process_bts_file_S file).2 = file ∧
    (process_bts_file_S ((process_bts_file_S file).2)).1 =
      (process_bts_file_S file).1 := by
  have hstate : (process_bts_file_S file).2 = file := by
    cases file with
    | none => rfl
    | some c =>
      have hb := process_bts_file_body_state c
      unfold process_bts_file_S
      rcases hbc : process_bts_file_body c with ⟨res, c2⟩
      rw [hbc] at hb
      cases res <;> simp_all
  exact ⟨hstate, by rw [hstate]⟩

/-- Claim C9, as stated, is false: for two TempStrain results sharing
the same distance-point count, the comparison report consists of the
cover page and the two per-channel pages only — it contains no
differencing page. -/
theorem claim_C9_counterexample :
    (process_bts_file (some exTS)).distance_points =
      (process_bts_file (some exTS2)).distance_points ∧
    (generate_comparison_report (process_bts_file (some exTS))
        (process_bts_file (some exTS2)) "f1.h5" "f2.h5").filter
        CmpPage.isDifference = [] ∧
    (generate_comparison_report (process_bts_file (some exTS))
        (process_bts_file (some exTS2)) "f1.h5" "f2.h5").length = 3 := by
  refine ⟨rfl, ?_, rfl⟩
  rfl

/-- Claim C9 amended: the two-file comparison PDF is the cover page
followed, when the first result is of type TempStrain, by one raw
comparison page per channel; no differencing page is ever generated,
whatever the distance-point counts. -/
theorem claim_C9 (r1 r2 : PyResult) (f1 f2 : String) :
    (generate_comparison_report r1 r2 f1 f2).filter CmpPage.isDifference
      = [] ∧
    (generate_comparison_report r1 r2 f1 f2).head? =
      some (CmpPage.cover f1 f2) := by
  unfold generate_comparison_report
  constructor
  · split <;> simp [CmpPage.isDifference]
  · rfl

/-- Claim C10: a variant whose marker pair is present but whose primary
arrays have zero frames never yields a success result: the frame-0
slice raises inside the catch-all and `process_bts_file` returns
success=false carrying the numpy indexing-error text. -/
theorem claim_C10 :
    (∀ (c : Brill0) (time : List ℚ) (scols : Nat) (ta : NdArray2),
      c.brillouinDataTime = some time →
      c.strainData = some ⟨scols, []⟩ →
      c.temperatureData = some ta →
      process_bts_file (some c) =
        PyResult.failure "index 0 is out of bounds for axis 0 with size 0") ∧
    (∀ (c : Brill0) (time : List ℚ) (scols tcols : Nat) (s0 : List ℚ)
        (srest : List (List ℚ)),
      c.brillouinDataTime = some time →
      c.strainData = some ⟨scols, s0 :: srest⟩ →
      c.temperatureData = some ⟨tcols, []⟩ →
      process_bts_file (some c) =
        PyResult.failure "index 0 is out of bounds for axis 0 with size 0") ∧
    (∀ (c : Brill0) (time : List ℚ) (fcols : Nat) (aa : NdArray2),
      c.brillouinDataTime = some time →
      (c.strainData.isSome && c.temperatureData.isSome) = false →
      c.frequencyData = some ⟨fcols, []⟩ →
      c.amplitudeData = some aa →
      process_bts_file (some c) =
        PyResult.failure "index 0 is out of bounds for axis 0 with size 0") ∧
    (∀ (c : Brill0) (time : List ℚ) (fcols acols : Nat) (f0 : List ℚ)
        (frest : List (List ℚ)),
      c.brillouinDataTime = some time →
      (c.strainData.isSome && c.temperatureData.isSome) = false →
      c.frequencyData = some ⟨fcols, f0 :: frest⟩ →
      c.amplitudeData = some ⟨acols, []⟩ →
      process_bts_file (some c) =
        PyResult.failure "index 0 is out of bounds for axis 0 with size 0") :=
  ⟨process_strain_empty_eq, process_temp_empty_eq,
    process_freq_empty_eq, process_amp_empty_eq⟩

/-- Witness for claim C10 at the four zero-frame containers. -/
theorem claim_C10_witness :
    process_bts_file (some exEmptyStrain) =
      PyResult.failure "index 0 is out of bounds for axis 0 with size 0" ∧
    process_bts_file (some exEmptyTemp) =
      PyResult.failure "index 0 is out of bounds for axis 0 with size 0" ∧
    process_bts_file (some exEmptyFreq) =
      PyResult.failure "index 0 is out of bounds for axis 0 with size 0" ∧
    process_bts_file (some exEmptyAmp) =
      PyResult.failure "index 0 is out of bounds for axis 0 with size 0" :=
  ⟨claim_C10.1 exEmptyStrain [0] 4 ⟨4, [[1, 2, 3, 4]]⟩ rfl rfl rfl,
    claim_C10.2.1 exEmptyTemp [0] 4 4 [1, 2, 3, 4] [] rfl rfl rfl,
    claim_C10.2.2.1 exEmptyFreq [0] 4 ⟨4, [[1, 2, 3, 4]]⟩ rfl rfl rfl rfl,
    claim_C10.2.2.2 exEmptyAmp [0] 4 4 [1, 2, 3, 4] [] rfl rfl rfl rfl⟩
